import Mathlib

/-!
Verification of the app-clientes backend write/read path
(src/backend/index.js): the multi-row parameterized INSERT builders, the
two transactional handlers (POST /areas/:id/puestos and POST /cuestionario),
and the questionnaire read-back endpoint GET /cuestionario-completo/:info_id.

JavaScript values travelling to the database are modelled by `Value`
(null/undefined collapse to `vnull`, which is how the pg driver binds them);
JS truthiness (`x || y`) is modelled by `Value.truthy` / `jsOr`.
Statement execution is modelled positionally, the way PostgreSQL binds
parameters: a statement with placeholder groups (lists of 1-based indices)
and a flat parameter list is valid iff every index lies in `[1, params.length]`;
an invalid index (such as `$0`) makes the statement fail.
-/

namespace AppClientes

/-- A JavaScript value as bound into a SQL parameter slot.
`vnull` covers both `null` and `undefined` (the pg driver binds both as
SQL NULL). -/
inductive Value where
  | vnull : Value
  | vstr : String → Value
  | vint : Int → Value
  deriving Repr, DecidableEq

/-- JS truthiness restricted to the values that occur here:
`null`/`undefined` and `""` and `0` are falsy, everything else truthy. -/
def Value.truthy : Value → Bool
  | .vnull => false
  | .vstr s => !(s == "")
  | .vint n => !(n == 0)

/-- The JS expression `a || b`. -/
def jsOr (a b : Value) : Value := if a.truthy then a else b

/-- Embeds the risk/PPE association placeholder builder of
src/backend/index.js lines 163-170 (riesgos) and 174-180 (epp), which are
textually identical up to the table name:

```
const params = [];
const placeholders = riesgos.map((r, i) => {
  params.push(puestoId, r);
  const idx = params.length - 1;
  // placeholder pair: ($1, $2), ($3, $4), ...
  return `($\x7bidx - 1\x7d, $\x7bidx\x7d)`;
}).join(',');
```

Returns the list of placeholder groups (each a list of placeholder
indices, exactly as written after the `$` signs) and the accumulated flat
parameter list. -/
def assocBuild (puestoId : Int) (items : List Int) :
    List (List Nat) × List Value :=
  items.foldl
    (fun acc r =>
      let params := acc.2 ++ [Value.vint puestoId, Value.vint r]
      let idx := params.length - 1
      (acc.1 ++ [[idx - 1, idx]], params))
    ([], [])

/-- A question/answer pair of the questionnaire payload
(`{pregunta, respuesta}`). -/
structure Respuesta where
  pregunta : Value
  respuesta : Value
  deriving Repr, DecidableEq

/-- Embeds the answer-row placeholder builder of src/backend/index.js
lines 285-290:

```
const params = [];
const placeholders = respuestas.map((r, i) => {
  const base = i * 6; // 6 parámetros por fila
  params.push(puesto_id, nom, subopcion_id, infoId, r.pregunta, r.respuesta);
  return `($\x7bbase + 1\x7d, ..., $\x7bbase + 6\x7d)`;
}).join(',');
```
-/
def respuestasBuild (pid nomv subid : Value) (infoId : Int)
    (resp : List Respuesta) : List (List Nat) × List Value :=
  ((List.range resp.length).map fun i =>
      [6*i + 1, 6*i + 2, 6*i + 3, 6*i + 4, 6*i + 5, 6*i + 6],
   resp.flatMap fun r => [pid, nomv, subid, Value.vint infoId, r.pregunta, r.respuesta])

/-- PostgreSQL accepts a placeholder `$j` iff `1 ≤ j ≤ params.length`
(placeholders are 1-based; `$0` is an error). -/
def validIdx (nparams : Nat) (j : Nat) : Bool :=
  decide (1 ≤ j) && decide (j ≤ nparams)

/-- A multi-row statement executes successfully iff every placeholder
index of every group is valid for the parameter list. -/
def stmtValid (groups : List (List Nat)) (params : List Value) : Bool :=
  groups.all fun g => g.all (validIdx params.length)

/-- The rows a valid multi-row INSERT materializes: placeholder `$j`
binds `params[j-1]` (1-based placeholders over a 0-based array). -/
def materializeRows (groups : List (List Nat)) (params : List Value) :
    List (List Value) :=
  groups.map fun g => g.map fun j => params.getD (j - 1) Value.vnull

/-- Flatten the placeholder groups into the sequence of indices as they
appear left-to-right in the generated SQL text. -/
def flatIndices (groups : List (List Nat)) : List Nat :=
  groups.flatMap id

/-! ## Database state and the two transactional handlers -/

/-- A row of `puestos_trabajo`. `area_id` keeps the raw request-parameter
value (a path string in the source). -/
structure PuestoRow where
  id : Int
  area_id : Value
  puesto : Value
  numero_usuarios : Value
  descripcion : Value
  criterio_epp : Value
  deriving Repr, DecidableEq

/-- A row of `cuestionarios_info` (the questionnaire header).
`created_at` is filled by the store's default clock. -/
structure InfoRow where
  id : Int
  puesto_id : Value
  nom : Value
  subopcion_id : Value
  observaciones : Value
  recomendaciones : Value
  recomendaciones_epp : Value
  image : Value
  created_at : Value
  deriving Repr, DecidableEq

/-- A row of `cuestionarios` (one answer), with its serial primary key. -/
structure AnswerRow where
  id : Int
  puesto_id : Value
  nom : Value
  subopcion_id : Value
  info_id : Value
  pregunta : Value
  respuesta : Value
  deriving Repr, DecidableEq

/-- The relational state touched by the verified handlers. `next*` are the
store's serial-sequence counters for the generated primary keys. -/
structure DB where
  puestos : List PuestoRow
  puestos_riesgos : List (Value × Value)
  puestos_epp : List (Value × Value)
  cuestionarios_info : List InfoRow
  cuestionarios : List AnswerRow
  nextPuestoId : Int
  nextInfoId : Int
  nextAnswerId : Int
  deriving Repr, DecidableEq

/-- Connection/transaction events, in the order the handler issues them.
`exec` records each non-transaction-control statement with its table, its
placeholder groups and its bound parameters. -/
inductive Event where
  | acquire : Event
  | beginTx : Event
  | exec : String → List (List Nat) → List Value → Event
  | commit : Event
  | rollback : Event
  | release : Event
  deriving Repr, DecidableEq

/-- Outcome of running a handler: the store state after the request, the
HTTP response, and the connection trace. -/
structure RunResult (R : Type) where
  db : DB
  resp : R
  trace : List Event
  deriving Repr, DecidableEq

/-- Body of POST /areas/:id/puestos (destructured with
`riesgos = [], epp = []` defaults in the source). -/
structure PuestoBody where
  puesto : Value
  numero_usuarios : Value
  descripcion : Value
  criterio_epp : Value
  riesgos : List Int
  epp : List Int
  deriving Repr, DecidableEq

/-- Response of POST /areas/:id/puestos: either
`{success:true, id}` or the generic 500 body
`{error: "Error en el servidor"}` produced by `handleServerError`. -/
inductive PuestoResp where
  | success : Int → PuestoResp
  | serverError : PuestoResp
  deriving Repr, DecidableEq

/-- Convert a materialized two-column row into an association-table row. -/
def toAssocRow (vals : List Value) : Value × Value :=
  (vals.getD 0 Value.vnull, vals.getD 1 Value.vnull)

/-- Embeds POST /areas/:id/puestos (src/backend/index.js lines 151-192).
`fails n` injects a storage failure into the n-th issued data statement
(0 = parent insert, 1 = riesgos insert, 2 = epp insert, 3 = COMMIT);
independently, a statement whose generated SQL contains an invalid
placeholder index fails on its own. Any caught error leads to ROLLBACK,
the generic 500 response, and release of the connection in `finally`. -/
def postPuesto (fails : Nat → Bool) (db : DB) (areaId : Value)
    (b : PuestoBody) : RunResult PuestoResp :=
  let pre : List Event := [Event.acquire, Event.beginTx]
  let parentParams : List Value :=
    [areaId, b.puesto, b.numero_usuarios, b.descripcion, b.criterio_epp]
  let parentExec := Event.exec "puestos_trabajo" [[1, 2, 3, 4, 5]] parentParams
  if fails 0 then
    ⟨db, PuestoResp.serverError,
      pre ++ [parentExec, Event.rollback, Event.release]⟩
  else
    let puestoId := db.nextPuestoId
    let db1 : DB := { db with
      puestos := db.puestos ++
        [⟨puestoId, areaId, b.puesto, b.numero_usuarios, b.descripcion,
          b.criterio_epp⟩],
      nextPuestoId := puestoId + 1 }
    let tr1 := pre ++ [parentExec]
    -- riesgos block (guarded by Array.isArray && length > 0)
    let rb := assocBuild puestoId b.riesgos
    if b.riesgos.length > 0 then
      let rExec := Event.exec "puestos_riesgos" rb.1 rb.2
      if fails 1 || !(stmtValid rb.1 rb.2) then
        ⟨db, PuestoResp.serverError,
          tr1 ++ [rExec, Event.rollback, Event.release]⟩
      else
        let db2 : DB := { db1 with
          puestos_riesgos := db1.puestos_riesgos ++
            (materializeRows rb.1 rb.2).map toAssocRow }
        let tr2 := tr1 ++ [rExec]
        postPuestoEpp fails db db2 tr2 puestoId b
    else
      postPuestoEpp fails db db1 tr1 puestoId b
where
  /-- The epp block, COMMIT and response (same structure as above). -/
  postPuestoEpp (fails : Nat → Bool) (db0 dbIn : DB) (tr : List Event)
      (puestoId : Int) (b : PuestoBody) : RunResult PuestoResp :=
    let eb := assocBuild puestoId b.epp
    if b.epp.length > 0 then
      let eExec := Event.exec "puestos_epp" eb.1 eb.2
      if fails 2 || !(stmtValid eb.1 eb.2) then
        ⟨db0, PuestoResp.serverError,
          tr ++ [eExec, Event.rollback, Event.release]⟩
      else
        let dbOut : DB := { dbIn with
          puestos_epp := dbIn.puestos_epp ++
            (materializeRows eb.1 eb.2).map toAssocRow }
        postPuestoCommit fails db0 dbOut (tr ++ [eExec]) puestoId
    else
      postPuestoCommit fails db0 dbIn tr puestoId
  /-- COMMIT: on success the transaction's state becomes visible; a COMMIT
  failure is caught like any other and triggers ROLLBACK. -/
  postPuestoCommit (fails : Nat → Bool) (db0 dbIn : DB) (tr : List Event)
      (puestoId : Int) : RunResult PuestoResp :=
    if fails 3 then
      ⟨db0, PuestoResp.serverError, tr ++ [Event.rollback, Event.release]⟩
    else
      ⟨dbIn, PuestoResp.success puestoId,
        tr ++ [Event.commit, Event.release]⟩

/-! ## POST /cuestionario -/

/-- The structured questionnaire payload
(`JSON.parse` result destructured with `respuestas = []` default);
absent fields are `vnull`. -/
structure CuestPayload where
  puesto_id : Value
  nom : Value
  subopcion_id : Value
  observaciones : Value
  recomendaciones : Value
  recomendaciones_epp : Value
  respuestas : List Respuesta
  deriving Repr, DecidableEq

/-- The multipart `data` text field as received: either present but not
valid JSON, or present and parsing to a payload. A missing field is
`Option.none` at the call site. -/
inductive DataField where
  | malformed : DataField
  | wellFormed : CuestPayload → DataField
  deriving Repr, DecidableEq

/-- The payload `JSON.parse("\x7b\x7d")` produces: every field undefined,
`respuestas` defaulted to `[]` by the destructuring. -/
def emptyPayload : CuestPayload :=
  ⟨Value.vnull, Value.vnull, Value.vnull, Value.vnull, Value.vnull,
   Value.vnull, []⟩

/-- Embeds `JSON.parse(req.body.data || '\x7b\x7d')` (line 262): a missing
`data` field falls back to the literal `'\x7b\x7d'`, which parses to the
empty object; a malformed field throws, caught as `none` here. -/
def parseData : Option DataField → Option CuestPayload
  | none => some emptyPayload
  | some DataField.malformed => none
  | some (DataField.wellFormed p) => some p

/-- Response of POST /cuestionario: the success body
`{message: ..., info_id}`, the 400 body `{error: "Datos inválidos"}`, or
the generic 500 body. -/
inductive CuestResp where
  | saved : Int → CuestResp
  | badRequest : CuestResp
  | serverError : CuestResp
  deriving Repr, DecidableEq

/-- Convert a materialized six-column row of the `cuestionarios` insert
into a full answer row carrying its serial primary key. -/
def toAnswerRow (id : Int) (vals : List Value) : AnswerRow :=
  ⟨id, vals.getD 0 Value.vnull, vals.getD 1 Value.vnull,
   vals.getD 2 Value.vnull, vals.getD 3 Value.vnull,
   vals.getD 4 Value.vnull, vals.getD 5 Value.vnull⟩

/-- PostgreSQL assigns serial keys to a multi-row INSERT in row order:
row i of the statement gets key `startId + i`. -/
def appendAnswers (startId : Int) : List (List Value) → List AnswerRow
  | [] => []
  | v :: rest => toAnswerRow startId v :: appendAnswers (startId + 1) rest

/-- The expression `req.file ? '/uploads/' + req.file.filename : null`
(lines 268, 112). -/
def imagePathOf : Option String → Value
  | some f => Value.vstr ("/uploads/" ++ f)
  | none => Value.vnull

/-- The transactional part of POST /cuestionario (src/backend/index.js
lines 268-303), run once the payload has parsed: header insert with the
`|| null` coercions, answer insert via the multi-row builder, COMMIT;
any caught error leads to ROLLBACK, the generic 500 response, and release
of the connection in `finally`. `file` is the optional uploaded image's
stored filename; `now` is the store's clock for `created_at`; `fails n`
injects a storage failure into the n-th issued data statement
(0 = header insert, 1 = answers insert, 2 = COMMIT). -/
def cuestionarioTxn (fails : Nat → Bool) (db : DB) (p : CuestPayload)
    (file : Option String) (now : Value) : RunResult CuestResp :=
    let imagePath : Value := imagePathOf file
    let pre : List Event := [Event.acquire, Event.beginTx]
    let headerParams : List Value :=
      [p.puesto_id, p.nom, p.subopcion_id, jsOr p.observaciones Value.vnull,
       jsOr p.recomendaciones Value.vnull,
       jsOr p.recomendaciones_epp Value.vnull, imagePath]
    let headerExec :=
      Event.exec "cuestionarios_info" [[1, 2, 3, 4, 5, 6, 7]] headerParams
    if fails 0 then
      ⟨db, CuestResp.serverError,
        pre ++ [headerExec, Event.rollback, Event.release]⟩
    else
      let infoId := db.nextInfoId
      let db1 : DB := { db with
        cuestionarios_info := db.cuestionarios_info ++
          [⟨infoId, p.puesto_id, p.nom, p.subopcion_id,
            jsOr p.observaciones Value.vnull,
            jsOr p.recomendaciones Value.vnull,
            jsOr p.recomendaciones_epp Value.vnull, imagePath, now⟩],
        nextInfoId := infoId + 1 }
      let tr1 := pre ++ [headerExec]
      let ab := respuestasBuild p.puesto_id p.nom p.subopcion_id infoId
        p.respuestas
      if p.respuestas.length > 0 then
        let aExec := Event.exec "cuestionarios" ab.1 ab.2
        if fails 1 || !(stmtValid ab.1 ab.2) then
          ⟨db, CuestResp.serverError,
            tr1 ++ [aExec, Event.rollback, Event.release]⟩
        else
          let db2 : DB := { db1 with
            cuestionarios := db1.cuestionarios ++
              appendAnswers db1.nextAnswerId (materializeRows ab.1 ab.2),
            nextAnswerId := db1.nextAnswerId + p.respuestas.length }
          postCuestCommit fails db db2 (tr1 ++ [aExec]) infoId
      else
        postCuestCommit fails db db1 tr1 infoId
where
  /-- COMMIT and response; a COMMIT failure is caught and rolls back. -/
  postCuestCommit (fails : Nat → Bool) (db0 dbIn : DB) (tr : List Event)
      (infoId : Int) : RunResult CuestResp :=
    if fails 2 then
      ⟨db0, CuestResp.serverError, tr ++ [Event.rollback, Event.release]⟩
    else
      ⟨dbIn, CuestResp.saved infoId, tr ++ [Event.commit, Event.release]⟩

/-- Embeds POST /cuestionario (src/backend/index.js lines 259-304).
The `data` field is parsed before any connection is acquired; a parse
failure returns 400 (`{error: "Datos inválidos"}`) with an empty trace;
otherwise the transactional part runs on the parsed payload. -/
def postCuestionario (fails : Nat → Bool) (db : DB) (data : Option DataField)
    (file : Option String) (now : Value) : RunResult CuestResp :=
  match parseData data with
  | none => ⟨db, CuestResp.badRequest, []⟩
  | some p => cuestionarioTxn fails db p file now

/-! ## GET /cuestionario-completo/:info_id -/

/-- The shaped `info` object of the response (lines 344-350). -/
structure InfoShaped where
  observaciones : Value
  recomendaciones : Value
  recomendaciones_epp : Value
  image : Value
  created_at : Value
  deriving Repr, DecidableEq

/-- Embeds the response-shaping of lines 344-350: the three text fields
get `|| 'N/A'`, the image gets `|| null`, `created_at` is passed through. -/
def shapeInfoRow (r : InfoRow) : InfoShaped :=
  ⟨jsOr r.observaciones (Value.vstr "N/A"),
   jsOr r.recomendaciones (Value.vstr "N/A"),
   jsOr r.recomendaciones_epp (Value.vstr "N/A"),
   jsOr r.image Value.vnull, r.created_at⟩

/-- Response of GET /cuestionario-completo/:info_id: either the
`{info: null, respuestas: []}` not-found payload or the shaped header with
the question/answer pairs. -/
inductive CompletoResp where
  | notFound : CompletoResp
  | found : InfoShaped → List (Value × Value) → CompletoResp
  deriving Repr, DecidableEq

/-- The `respuestas` list of the response (empty in the not-found case). -/
def CompletoResp.answers : CompletoResp → List (Value × Value)
  | .notFound => []
  | .found _ rs => rs

/-- Insertion step of `ORDER BY id` over answer rows. -/
def insertById (a : AnswerRow) : List AnswerRow → List AnswerRow
  | [] => [a]
  | b :: rest =>
      if a.id ≤ b.id then a :: b :: rest else b :: insertById a rest

/-- `ORDER BY id` (ascending) over answer rows, as a stable sort. -/
def sortById : List AnswerRow → List AnswerRow
  | [] => []
  | a :: rest => insertById a (sortById rest)

/-- Embeds GET /cuestionario-completo/:info_id (lines 337-356): header
lookup by id first; if absent, the `{info: null, respuestas: []}` payload
without querying answers; otherwise the answers with that `info_id`
ordered by insertion id. The Bool records whether the answer-list query
was issued. -/
def getCompleto (db : DB) (infoId : Int) : CompletoResp × Bool :=
  match db.cuestionarios_info.filter (fun r => r.id == infoId) with
  | [] => (CompletoResp.notFound, false)
  | r :: _ =>
      let rows := sortById
        (db.cuestionarios.filter (fun a => a.info_id == Value.vint infoId))
      (CompletoResp.found (shapeInfoRow r)
        (rows.map fun a => (a.pregunta, a.respuesta)), true)

/-- Sequence counters dominate every stored row's generated key, and every
stored answer's `info_id` refers to an already-generated header id: true
of any state the store itself produced, and preserved by the handlers. -/
def DBWF (db : DB) : Prop :=
  (∀ a ∈ db.cuestionarios, a.id < db.nextAnswerId) ∧
  (∀ a ∈ db.cuestionarios, ∀ m : Int,
      a.info_id = Value.vint m → m < db.nextInfoId) ∧
  (∀ i ∈ db.cuestionarios_info, i.id < db.nextInfoId)

/-- The six values the answer-row builder pushes for one
question/answer pair, in push order. -/
def encodeAnswer (pid nomv subid : Value) (infoId : Int) (r : Respuesta) :
    List Value :=
  [pid, nomv, subid, Value.vint infoId, r.pregunta, r.respuesta]

/-! ## Concrete sample data for witnesses -/

/-- An empty store whose serial sequences are at 5 / 10 / 20. -/
def exDB : DB := ⟨[], [], [], [], [], 5, 10, 20⟩

/-- A position body with two risk ids and no PPE ids. -/
def exBody : PuestoBody :=
  ⟨Value.vstr "Soldador", Value.vint 2, Value.vstr "desc",
   Value.vstr "crit", [1, 2], []⟩

/-- A questionnaire payload with two answers. -/
def exPayload : CuestPayload :=
  ⟨Value.vint 3, Value.vstr "nom-017", Value.vint 4, Value.vstr "",
   Value.vnull, Value.vstr "obs", [⟨Value.vstr "Q1", Value.vstr "A1"⟩,
   ⟨Value.vstr "Q2", Value.vstr "A2"⟩]⟩

/-- A position body with no risk ids and no PPE ids. -/
def exBodyEmpty : PuestoBody :=
  ⟨Value.vstr "Capataz", Value.vint 1, Value.vstr "desc",
   Value.vstr "crit", [], []⟩

/-- A questionnaire payload with no answers. -/
def exPayloadEmpty : CuestPayload :=
  ⟨Value.vint 3, Value.vstr "nom-017", Value.vint 4, Value.vnull,
   Value.vnull, Value.vnull, []⟩

/-- A stored header row with null text fields and a null image. -/
def exInfoRow : InfoRow :=
  ⟨10, Value.vint 3, Value.vstr "nom-017", Value.vint 4, Value.vnull,
   Value.vnull, Value.vstr "obs", Value.vnull, Value.vstr "2026-01-01"⟩

/-! ## Helper lemmas about the builders -/

theorem assocBuild_foldl (pid : Int) (items : List Int) :
    ∀ acc : List (List Nat) × List Value,
      (items.foldl (fun acc r =>
        let params := acc.2 ++ [Value.vint pid, Value.vint r]
        let idx := params.length - 1
        (acc.1 ++ [[idx - 1, idx]], params)) acc).2
      = acc.2 ++ (items.flatMap fun r => [Value.vint pid, Value.vint r]) := by
  induction items with
  | nil => intro acc; simp
  | cons r rest ih =>
      intro acc
      simp only [List.foldl_cons, List.flatMap_cons, ih]
      simp

/-- The flat parameter list of the association builder is the row-major
concatenation of the `(puestoId, childId)` pairs. -/
theorem assocBuild_params (pid : Int) (items : List Int) :
    (assocBuild pid items).2
      = items.flatMap fun r => [Value.vint pid, Value.vint r] := by
  have h := assocBuild_foldl pid items ([], [])
  rw [List.nil_append] at h
  exact h

theorem respuestasBuild_snd (pid nomv subid : Value) (infoId : Int)
    (resp : List Respuesta) :
    (respuestasBuild pid nomv subid infoId resp).2
      = resp.flatMap (encodeAnswer pid nomv subid infoId) := rfl

theorem encodeAnswer_flat_length (pid nomv subid : Value) (infoId : Int)
    (resp : List Respuesta) :
    (resp.flatMap (encodeAnswer pid nomv subid infoId)).length
      = 6 * resp.length := by
  induction resp with
  | nil => simp
  | cons r rest ih =>
      simp only [List.flatMap_cons, List.length_append, ih, encodeAnswer]
      simp; omega

theorem encodeAnswer_flat_getD (pid nomv subid : Value) (infoId : Int) :
    ∀ (resp : List Respuesta) (i j : Nat), j < 6 →
      (resp.flatMap (encodeAnswer pid nomv subid infoId)).getD (6 * i + j)
          Value.vnull
        = ((resp.map (encodeAnswer pid nomv subid infoId)).getD i []).getD j
            Value.vnull := by
  intro resp
  induction resp with
  | nil => intro i j _; simp [List.getD]
  | cons r rest ih =>
      intro i j hj
      cases i with
      | zero =>
          simp only [Nat.mul_zero, Nat.zero_add, List.flatMap_cons,
            List.map_cons]
          rw [List.getD_append _ _ _ _ (by simp [encodeAnswer]; omega)]
          simp [List.getD]
      | succ i' =>
          simp only [List.flatMap_cons, List.map_cons]
          have harith : 6 * (i' + 1) + j
              = (encodeAnswer pid nomv subid infoId r).length
                + (6 * i' + j) := by
            simp [encodeAnswer]; omega
          rw [harith, List.getD_append_right _ _ _ _ (Nat.le_add_right _ _),
            Nat.add_sub_cancel_left]
          simpa [List.getD] using ih i' j hj

theorem respuestasBuild_fst (pid nomv subid : Value) (infoId : Int)
    (resp : List Respuesta) :
    (respuestasBuild pid nomv subid infoId resp).1
      = (List.range resp.length).map fun i =>
          [6*i + 1, 6*i + 2, 6*i + 3, 6*i + 4, 6*i + 5, 6*i + 6] := rfl

/-- Executing the answer-row statement materializes exactly the intended
six-column rows, one per submitted answer, in submission order. -/
theorem respuestas_materialize (pid nomv subid : Value) (infoId : Int)
    (resp : List Respuesta) :
    materializeRows (respuestasBuild pid nomv subid infoId resp).1
        (respuestasBuild pid nomv subid infoId resp).2
      = resp.map (encodeAnswer pid nomv subid infoId) := by
  apply List.ext_getElem
  · simp [materializeRows, respuestasBuild_fst]
  · intro i h1 h2
    have hn : i < resp.length := by
      simpa [materializeRows, respuestasBuild_fst] using h1
    have hget : ∀ j : Nat, j < 6 →
        ((respuestasBuild pid nomv subid infoId resp).2).getD (6 * i + j)
            Value.vnull
          = (encodeAnswer pid nomv subid infoId (resp.get ⟨i, hn⟩)).getD j
              Value.vnull := by
      intro j hj
      have hmap : (List.map (encodeAnswer pid nomv subid infoId) resp).getD i []
          = encodeAnswer pid nomv subid infoId (resp.get ⟨i, hn⟩) := by
        rw [List.getD_eq_getElem _ _ (by simpa using hn)]
        simp
      rw [respuestasBuild_snd,
        encodeAnswer_flat_getD pid nomv subid infoId resp i j hj, hmap]
    have e0 : 6*i + 1 - 1 = 6*i + 0 := by omega
    have e1 : 6*i + 2 - 1 = 6*i + 1 := by omega
    have e2 : 6*i + 3 - 1 = 6*i + 2 := by omega
    have e3 : 6*i + 4 - 1 = 6*i + 3 := by omega
    have e4 : 6*i + 5 - 1 = 6*i + 4 := by omega
    have e5 : 6*i + 6 - 1 = 6*i + 5 := by omega
    simp only [materializeRows, respuestasBuild_fst, List.getElem_map,
      List.getElem_range, List.map_cons, List.map_nil, e0, e1, e2, e3, e4, e5,
      hget 0 (by omega), hget 1 (by omega), hget 2 (by omega),
      hget 3 (by omega), hget 4 (by omega), hget 5 (by omega)]
    simp [encodeAnswer, List.getD, List.get_eq_getElem]

/-- The answer-row statement's placeholder indices are all valid:
the statement executes. -/
theorem stmtValid_respuestas (pid nomv subid : Value) (infoId : Int)
    (resp : List Respuesta) :
    stmtValid (respuestasBuild pid nomv subid infoId resp).1
      (respuestasBuild pid nomv subid infoId resp).2 = true := by
  rw [stmtValid, respuestasBuild_fst, respuestasBuild_snd]
  rw [List.all_eq_true]
  intro g hg
  rw [List.mem_map] at hg
  obtain ⟨i, hi, rfl⟩ := hg
  rw [List.mem_range] at hi
  rw [List.all_eq_true]
  intro j hj
  rw [encodeAnswer_flat_length]
  simp only [List.mem_cons, List.not_mem_nil, or_false] at hj
  rcases hj with rfl | rfl | rfl | rfl | rfl | rfl <;>
    simp [validIdx] <;> omega

/-! ## Helper lemmas about serial-keyed answer rows and ORDER BY id -/

theorem appendAnswers_id_ge (rows : List (List Value)) :
    ∀ s : Int, ∀ a ∈ appendAnswers s rows, s ≤ a.id := by
  induction rows with
  | nil => intro s a ha; simp [appendAnswers] at ha
  | cons v rest ih =>
      intro s a ha
      simp only [appendAnswers, List.mem_cons] at ha
      rcases ha with rfl | ha
      · show s ≤ s; omega
      · have := ih (s + 1) a ha; omega

theorem appendAnswers_pairwise (rows : List (List Value)) :
    ∀ s : Int, (appendAnswers s rows).Pairwise fun x y => x.id ≤ y.id := by
  induction rows with
  | nil => intro s; simp [appendAnswers]
  | cons v rest ih =>
      intro s
      rw [appendAnswers, List.pairwise_cons]
      refine ⟨fun b hb => ?_, ih (s + 1)⟩
      have := appendAnswers_id_ge rest (s + 1) b hb
      show s ≤ b.id
      omega

theorem appendAnswers_encode_info_id (pid nomv subid : Value) (infoId : Int)
    (resp : List Respuesta) :
    ∀ s : Int,
      ∀ a ∈ appendAnswers s (resp.map (encodeAnswer pid nomv subid infoId)),
        a.info_id = Value.vint infoId := by
  induction resp with
  | nil => intro s a ha; simp [appendAnswers] at ha
  | cons r rest ih =>
      intro s a ha
      simp only [List.map_cons, appendAnswers, List.mem_cons] at ha
      rcases ha with rfl | ha
      · rfl
      · exact ih (s + 1) a ha

theorem appendAnswers_encode_qa (pid nomv subid : Value) (infoId : Int)
    (resp : List Respuesta) :
    ∀ s : Int,
      (appendAnswers s (resp.map (encodeAnswer pid nomv subid infoId))).map
          (fun a => (a.pregunta, a.respuesta))
        = resp.map fun r => (r.pregunta, r.respuesta) := by
  induction resp with
  | nil => intro s; rfl
  | cons r rest ih =>
      intro s
      simp only [List.map_cons, appendAnswers, ih (s + 1)]
      rfl

theorem insertById_of_le (a : AnswerRow) (l : List AnswerRow)
    (h : ∀ b ∈ l, a.id ≤ b.id) : insertById a l = a :: l := by
  cases l with
  | nil => rfl
  | cons b rest => rw [insertById, if_pos (h b (by simp))]

/-- `ORDER BY id` leaves a list already ascending by id unchanged. -/
theorem sortById_of_pairwise (l : List AnswerRow)
    (h : l.Pairwise fun x y => x.id ≤ y.id) : sortById l = l := by
  induction l with
  | nil => rfl
  | cons a rest ih =>
      rw [List.pairwise_cons] at h
      rw [sortById, ih h.2, insertById_of_le a rest h.1]

/-- The success path of POST /cuestionario with no storage failures:
the header row is appended with the next header id, the serially-keyed
answer rows are appended in submission order, and the generated header id
is returned. -/
theorem postCuestionario_success (fails : Nat → Bool) (db : DB)
    (p : CuestPayload) (file : Option String) (now : Value)
    (hf : ∀ n, fails n = false) :
    (postCuestionario fails db (some (DataField.wellFormed p)) file now).db
      = { db with
          cuestionarios_info := db.cuestionarios_info ++
            [⟨db.nextInfoId, p.puesto_id, p.nom, p.subopcion_id,
              jsOr p.observaciones Value.vnull,
              jsOr p.recomendaciones Value.vnull,
              jsOr p.recomendaciones_epp Value.vnull,
              imagePathOf file, now⟩],
          cuestionarios := db.cuestionarios ++
            appendAnswers db.nextAnswerId
              (p.respuestas.map
                (encodeAnswer p.puesto_id p.nom p.subopcion_id db.nextInfoId)),
          nextInfoId := db.nextInfoId + 1,
          nextAnswerId := db.nextAnswerId + p.respuestas.length }
      ∧ (postCuestionario fails db (some (DataField.wellFormed p)) file now).resp
        = CuestResp.saved db.nextInfoId := by
  unfold postCuestionario cuestionarioTxn cuestionarioTxn.postCuestCommit
  simp only [parseData, hf, Bool.false_or, stmtValid_respuestas,
    Bool.not_true, if_false, Bool.false_eq_true, respuestas_materialize]
  rcases Nat.eq_zero_or_pos p.respuestas.length with hz | hpos
  · have hnil : p.respuestas = [] := List.eq_nil_of_length_eq_zero hz
    simp [hnil, appendAnswers]
  · simp only [hpos, if_true, gt_iff_lt, if_pos hpos]
    exact ⟨trivial, trivial⟩

/-- Reading a questionnaire back when the store holds the old rows plus
one fresh header and its fresh answers: the header is found and exactly
the fresh answers come back, in id order. -/
theorem getCompleto_append (db' : DB) (M : Int) (info' : InfoRow)
    (oldInfos : List InfoRow) (oldAns newAns : List AnswerRow)
    (hInfos : db'.cuestionarios_info = oldInfos ++ [info'])
    (hAns : db'.cuestionarios = oldAns ++ newAns)
    (hIdOld : ∀ i ∈ oldInfos, i.id ≠ M)
    (hId : info'.id = M)
    (hOld : ∀ a ∈ oldAns, a.info_id ≠ Value.vint M)
    (hNew : ∀ a ∈ newAns, a.info_id = Value.vint M)
    (hSorted : newAns.Pairwise fun x y => x.id ≤ y.id) :
    getCompleto db' M
      = (CompletoResp.found (shapeInfoRow info')
          (newAns.map fun a => (a.pregunta, a.respuesta)), true) := by
  have h1 : db'.cuestionarios_info.filter (fun r => r.id == M) = [info'] := by
    rw [hInfos, List.filter_append]
    have hA : oldInfos.filter (fun r => r.id == M) = [] :=
      List.filter_eq_nil_iff.mpr fun i hi => by simpa using hIdOld i hi
    have hB : [info'].filter (fun r => r.id == M) = [info'] := by
      simp [List.filter, hId]
    rw [hA, hB, List.nil_append]
  have h2 : db'.cuestionarios.filter (fun a => a.info_id == Value.vint M)
      = newAns := by
    rw [hAns, List.filter_append]
    have hA : oldAns.filter (fun a => a.info_id == Value.vint M) = [] :=
      List.filter_eq_nil_iff.mpr fun a ha => by simpa using hOld a ha
    have hB : newAns.filter (fun a => a.info_id == Value.vint M) = newAns :=
      List.filter_eq_self.mpr fun a ha => by simp [hNew a ha]
    rw [hA, hB, List.nil_append]
  unfold getCompleto
  rw [h1, h2, sortById_of_pairwise _ hSorted]

/-- Round trip: after a fully successful POST /cuestionario on a
well-formed store, GET /cuestionario-completo of the generated id finds
the new header and returns exactly the submitted answers in submission
order. -/
theorem getCompleto_after_success (fails : Nat → Bool) (db : DB)
    (p : CuestPayload) (file : Option String) (now : Value)
    (hwf : DBWF db) (hf : ∀ n, fails n = false) :
    getCompleto
        (postCuestionario fails db (some (DataField.wellFormed p)) file now).db
        db.nextInfoId
      = (CompletoResp.found
          ⟨jsOr (jsOr p.observaciones Value.vnull) (Value.vstr "N/A"),
           jsOr (jsOr p.recomendaciones Value.vnull) (Value.vstr "N/A"),
           jsOr (jsOr p.recomendaciones_epp Value.vnull) (Value.vstr "N/A"),
           jsOr (imagePathOf file) Value.vnull,
           now⟩
          (p.respuestas.map fun r => (r.pregunta, r.respuesta)), true) := by
  obtain ⟨hdb, -⟩ := postCuestionario_success fails db p file now hf
  rw [hdb]
  rw [getCompleto_append _ db.nextInfoId
    ⟨db.nextInfoId, p.puesto_id, p.nom, p.subopcion_id,
      jsOr p.observaciones Value.vnull, jsOr p.recomendaciones Value.vnull,
      jsOr p.recomendaciones_epp Value.vnull, imagePathOf file, now⟩
    db.cuestionarios_info db.cuestionarios
    (appendAnswers db.nextAnswerId
      (p.respuestas.map
        (encodeAnswer p.puesto_id p.nom p.subopcion_id db.nextInfoId)))
    rfl rfl
    (fun i hi => by have := hwf.2.2 i hi; omega)
    rfl
    (fun a ha m => by
      have := hwf.2.1 a ha db.nextInfoId m
      omega)
    (appendAnswers_encode_info_id p.puesto_id p.nom p.subopcion_id
      db.nextInfoId p.respuestas db.nextAnswerId)
    (appendAnswers_pairwise _ db.nextAnswerId)]
  rw [appendAnswers_encode_qa, shapeInfoRow]

/-- Atomicity and cleanup of POST /areas/:id/puestos: a server error
leaves the store untouched with a ROLLBACK issued, and the connection is
always released last. -/
theorem postPuestoCommit_atomic (fails : Nat → Bool) (db0 dbIn : DB)
    (tr : List Event) (pid : Int) :
    ((postPuesto.postPuestoCommit fails db0 dbIn tr pid).resp
        = PuestoResp.serverError →
      (postPuesto.postPuestoCommit fails db0 dbIn tr pid).db = db0 ∧
      Event.rollback
        ∈ (postPuesto.postPuestoCommit fails db0 dbIn tr pid).trace) ∧
    (postPuesto.postPuestoCommit fails db0 dbIn tr pid).trace.getLast?
      = some Event.release := by
  unfold postPuesto.postPuestoCommit
  split <;> simp

theorem postPuestoEpp_atomic (fails : Nat → Bool) (db0 dbIn : DB)
    (tr : List Event) (pid : Int) (b : PuestoBody) :
    ((postPuesto.postPuestoEpp fails db0 dbIn tr pid b).resp
        = PuestoResp.serverError →
      (postPuesto.postPuestoEpp fails db0 dbIn tr pid b).db = db0 ∧
      Event.rollback
        ∈ (postPuesto.postPuestoEpp fails db0 dbIn tr pid b).trace) ∧
    (postPuesto.postPuestoEpp fails db0 dbIn tr pid b).trace.getLast?
      = some Event.release := by
  unfold postPuesto.postPuestoEpp
  dsimp only
  split
  · split
    · simp
    · exact postPuestoCommit_atomic fails db0 _ _ pid
  · exact postPuestoCommit_atomic fails db0 dbIn tr pid

theorem postPuesto_atomic (fails : Nat → Bool) (db : DB) (areaId : Value)
    (b : PuestoBody) :
    ((postPuesto fails db areaId b).resp = PuestoResp.serverError →
      (postPuesto fails db areaId b).db = db ∧
      Event.rollback ∈ (postPuesto fails db areaId b).trace) ∧
    (postPuesto fails db areaId b).trace.getLast? = some Event.release := by
  unfold postPuesto
  dsimp only
  split
  · simp
  · split
    · split
      · simp
      · exact postPuestoEpp_atomic fails db _ _ _ b
    · exact postPuestoEpp_atomic fails db _ _ _ b

theorem postCuestCommit_atomic (fails : Nat → Bool) (db0 dbIn : DB)
    (tr : List Event) (infoId : Int) :
    ((cuestionarioTxn.postCuestCommit fails db0 dbIn tr infoId).resp
        = CuestResp.serverError →
      (cuestionarioTxn.postCuestCommit fails db0 dbIn tr infoId).db = db0 ∧
      Event.rollback
        ∈ (cuestionarioTxn.postCuestCommit fails db0 dbIn tr infoId).trace) ∧
    (cuestionarioTxn.postCuestCommit fails db0 dbIn tr infoId).trace.getLast?
      = some Event.release := by
  unfold cuestionarioTxn.postCuestCommit
  split <;> simp

theorem cuestionarioTxn_atomic (fails : Nat → Bool) (db : DB)
    (p : CuestPayload) (file : Option String) (now : Value) :
    ((cuestionarioTxn fails db p file now).resp = CuestResp.serverError →
      (cuestionarioTxn fails db p file now).db = db ∧
      Event.rollback ∈ (cuestionarioTxn fails db p file now).trace) ∧
    (cuestionarioTxn fails db p file now).trace.getLast?
      = some Event.release := by
  unfold cuestionarioTxn
  dsimp only
  split
  · simp
  · split
    · split
      · simp
      · exact postCuestCommit_atomic fails db _ _ _
    · exact postCuestCommit_atomic fails db _ _ _

/-- Atomicity and cleanup of POST /cuestionario: a server error leaves
the store untouched with a ROLLBACK issued, and whenever the response is
not the 400 parse rejection (so a connection was acquired at all) the
connection is released last. -/
theorem postCuestionario_atomic (fails : Nat → Bool) (db : DB)
    (data : Option DataField) (file : Option String) (now : Value) :
    ((postCuestionario fails db data file now).resp = CuestResp.serverError →
      (postCuestionario fails db data file now).db = db ∧
      Event.rollback ∈ (postCuestionario fails db data file now).trace) ∧
    ((postCuestionario fails db data file now).resp ≠ CuestResp.badRequest →
      (postCuestionario fails db data file now).trace.getLast?
        = some Event.release) := by
  unfold postCuestionario
  rcases data with - | - | p
  · exact ⟨(cuestionarioTxn_atomic fails db emptyPayload file now).1,
      fun _ => (cuestionarioTxn_atomic fails db emptyPayload file now).2⟩
  · exact ⟨fun h => by simp [parseData] at h, fun h => by simp [parseData] at h⟩
  · exact ⟨(cuestionarioTxn_atomic fails db p file now).1,
      fun _ => (cuestionarioTxn_atomic fails db p file now).2⟩

/-! ## Which statements a position-creation run issues -/

theorem postPuestoCommit_trace_mem (fails : Nat → Bool) (db0 dbIn : DB)
    (tr : List Event) (pid : Int) (e : Event)
    (h : e ∈ (postPuesto.postPuestoCommit fails db0 dbIn tr pid).trace) :
    e ∈ tr ∨ e = Event.rollback ∨ e = Event.commit ∨ e = Event.release := by
  unfold postPuesto.postPuestoCommit at h
  split at h <;> simp at h <;> tauto

theorem postPuestoEpp_trace_mem (fails : Nat → Bool) (db0 dbIn : DB)
    (tr : List Event) (pid : Int) (b : PuestoBody) (e : Event)
    (h : e ∈ (postPuesto.postPuestoEpp fails db0 dbIn tr pid b).trace) :
    e ∈ tr
      ∨ e = Event.exec "puestos_epp" (assocBuild pid b.epp).1
          (assocBuild pid b.epp).2
      ∨ e = Event.rollback ∨ e = Event.commit ∨ e = Event.release := by
  unfold postPuesto.postPuestoEpp at h
  dsimp only at h
  split at h
  · split at h
    · simp at h; tauto
    · rcases postPuestoCommit_trace_mem _ _ _ _ _ _ h with hm | hm | hm | hm <;>
        [skip; tauto; tauto; tauto]
      simp at hm; tauto
  · rcases postPuestoCommit_trace_mem _ _ _ _ _ _ h with hm | hm | hm | hm <;>
      tauto

theorem postPuesto_trace_mem (fails : Nat → Bool) (db : DB) (areaId : Value)
    (b : PuestoBody) (e : Event)
    (h : e ∈ (postPuesto fails db areaId b).trace) :
    e = Event.acquire ∨ e = Event.beginTx
      ∨ e = Event.exec "puestos_trabajo" [[1, 2, 3, 4, 5]]
          [areaId, b.puesto, b.numero_usuarios, b.descripcion, b.criterio_epp]
      ∨ e = Event.exec "puestos_riesgos"
          (assocBuild db.nextPuestoId b.riesgos).1
          (assocBuild db.nextPuestoId b.riesgos).2
      ∨ e = Event.exec "puestos_epp" (assocBuild db.nextPuestoId b.epp).1
          (assocBuild db.nextPuestoId b.epp).2
      ∨ e = Event.rollback ∨ e = Event.commit ∨ e = Event.release := by
  unfold postPuesto at h
  dsimp only at h
  split at h
  · simp at h; tauto
  · split at h
    · split at h
      · simp at h; tauto
      · rcases postPuestoEpp_trace_mem _ _ _ _ _ _ _ h with
          hm | hm | hm | hm | hm <;> [skip; tauto; tauto; tauto; tauto]
        simp at hm; tauto
    · rcases postPuestoEpp_trace_mem _ _ _ _ _ _ _ h with
        hm | hm | hm | hm | hm <;> [skip; tauto; tauto; tauto; tauto]
      simp at hm; tauto

/-! ## Generated-identifier lemmas -/

theorem postPuesto_success_id (fails : Nat → Bool) (db : DB) (areaId : Value)
    (b : PuestoBody) (m : Int)
    (h : (postPuesto fails db areaId b).resp = PuestoResp.success m) :
    m = db.nextPuestoId ∧
    (⟨m, areaId, b.puesto, b.numero_usuarios, b.descripcion,
        b.criterio_epp⟩ : PuestoRow)
      ∈ (postPuesto fails db areaId b).db.puestos := by
  unfold postPuesto postPuesto.postPuestoEpp postPuesto.postPuestoCommit at *
  dsimp only at *
  repeat' split at h
  all_goals simp_all

theorem cuestionarioTxn_saved_id (fails : Nat → Bool) (db : DB)
    (p : CuestPayload) (file : Option String) (now : Value) (m : Int)
    (h : (cuestionarioTxn fails db p file now).resp = CuestResp.saved m) :
    m = db.nextInfoId := by
  unfold cuestionarioTxn cuestionarioTxn.postCuestCommit at h
  dsimp only at h
  repeat' split at h
  all_goals simp_all

theorem cuestionarioTxn_new_answers (fails : Nat → Bool) (db : DB)
    (p : CuestPayload) (file : Option String) (now : Value) :
    ∀ a ∈ (cuestionarioTxn fails db p file now).db.cuestionarios,
      a ∈ db.cuestionarios ∨ a.info_id = Value.vint db.nextInfoId := by
  unfold cuestionarioTxn cuestionarioTxn.postCuestCommit
  dsimp only
  intro a
  repeat' split
  all_goals intro ha
  all_goals
    first
    | exact Or.inl ha
    | (rw [respuestas_materialize] at ha
       rcases List.mem_append.mp ha with hold | hnew
       · exact Or.inl hold
       · exact Or.inr (appendAnswers_encode_info_id _ _ _ _ _ _ _ hnew))

/-! ## Empty dependent lists: no dependent statement at all -/

theorem postPuesto_empty (fails : Nat → Bool) (db : DB) (areaId : Value)
    (b : PuestoBody) (hR : b.riesgos = []) (hE : b.epp = [])
    (hf : ∀ n, fails n = false) :
    postPuesto fails db areaId b
      = ⟨{ db with
            puestos := db.puestos ++
              [⟨db.nextPuestoId, areaId, b.puesto, b.numero_usuarios,
                b.descripcion, b.criterio_epp⟩],
            nextPuestoId := db.nextPuestoId + 1 },
         PuestoResp.success db.nextPuestoId,
         [Event.acquire, Event.beginTx,
          Event.exec "puestos_trabajo" [[1, 2, 3, 4, 5]]
            [areaId, b.puesto, b.numero_usuarios, b.descripcion,
             b.criterio_epp],
          Event.commit, Event.release]⟩ := by
  unfold postPuesto postPuesto.postPuestoEpp postPuesto.postPuestoCommit
  simp [hR, hE, hf]

theorem cuestionarioTxn_empty (fails : Nat → Bool) (db : DB)
    (p : CuestPayload) (file : Option String) (now : Value)
    (hresp : p.respuestas = []) (hf : ∀ n, fails n = false) :
    cuestionarioTxn fails db p file now
      = ⟨{ db with
            cuestionarios_info := db.cuestionarios_info ++
              [⟨db.nextInfoId, p.puesto_id, p.nom, p.subopcion_id,
                jsOr p.observaciones Value.vnull,
                jsOr p.recomendaciones Value.vnull,
                jsOr p.recomendaciones_epp Value.vnull,
                imagePathOf file, now⟩],
            nextInfoId := db.nextInfoId + 1 },
         CuestResp.saved db.nextInfoId,
         [Event.acquire, Event.beginTx,
          Event.exec "cuestionarios_info" [[1, 2, 3, 4, 5, 6, 7]]
            [p.puesto_id, p.nom, p.subopcion_id,
             jsOr p.observaciones Value.vnull,
             jsOr p.recomendaciones Value.vnull,
             jsOr p.recomendaciones_epp Value.vnull, imagePathOf file],
          Event.commit, Event.release]⟩ := by
  unfold cuestionarioTxn cuestionarioTxn.postCuestCommit
  simp [hresp, hf]

theorem postCuestionario_wellFormed (fails : Nat → Bool) (db : DB)
    (p : CuestPayload) (file : Option String) (now : Value) :
    postCuestionario fails db (some (DataField.wellFormed p)) file now
      = cuestionarioTxn fails db p file now := rfl

theorem postCuestionario_none (fails : Nat → Bool) (db : DB)
    (file : Option String) (now : Value) :
    postCuestionario fails db none file now
      = cuestionarioTxn fails db emptyPayload file now := rfl

/-! ## The claims -/

/-- C1: The claim that every multi-row INSERT construction generates
placeholder indices exactly 1..n*k fails for the risk/PPE association
builders: for n = 2 rows of arity k = 2 the generated groups are
($0, $1), ($2, $3) — indices 0..3, not 1..4 — contradicting the code's
own comment "placeholder pair: ($1, $2), ($3, $4), ..." and PostgreSQL's
1-based placeholders; the flat parameter list is the correct row-major
concatenation, and the answer-row builder does generate 1..n*k. -/
theorem c1_assoc_builder_zero_based :
    (assocBuild 7 [1, 2]).1 = [[0, 1], [2, 3]] ∧
    flatIndices (assocBuild 7 [1, 2]).1 ≠ [1, 2, 3, 4] ∧
    (assocBuild 7 [1, 2]).2
      = [Value.vint 7, Value.vint 1, Value.vint 7, Value.vint 2] ∧
    (respuestasBuild (Value.vint 3) (Value.vstr "n") (Value.vint 4) 9
        [⟨Value.vstr "Q1", Value.vstr "A1"⟩,
         ⟨Value.vstr "Q2", Value.vstr "A2"⟩]).1
      = [[1, 2, 3, 4, 5, 6], [7, 8, 9, 10, 11, 12]] := by
  decide

/-- C2: POST /areas/5/puestos with riesgos [1, 2] and epp [] (the claim's
scenario) does not answer `{success:true, id}`: the riesgos insert's `$0`
placeholder makes the statement fail, the transaction rolls back (no
position row persists) and the response is the generic 500. -/
theorem c2_post_puesto_riesgos_500 :
    (postPuesto (fun _ => false) exDB (Value.vstr "5") exBody).resp
      = PuestoResp.serverError ∧
    (postPuesto (fun _ => false) exDB (Value.vstr "5") exBody).db = exDB ∧
    Event.rollback
      ∈ (postPuesto (fun _ => false) exDB (Value.vstr "5") exBody).trace := by
  decide

/-- C3 counterexample: a POST /cuestionario whose multipart `data` field
is missing is not rejected with 400 — `req.body.data || '\x7b\x7d'` falls
back to the empty object, and a header row is created. -/
theorem c3_missing_data_not_rejected :
    (postCuestionario (fun _ => false) exDB none none
        (Value.vstr "2026-01-01")).resp ≠ CuestResp.badRequest ∧
    (postCuestionario (fun _ => false) exDB none none
        (Value.vstr "2026-01-01")).db.cuestionarios_info.length = 1 := by
  decide

/-- C3 (amended): a `data` field that is present but does not parse as
JSON is rejected with 400 `{error: "Datos inválidos"}` before any
connection or transaction (empty trace) and with no header row created;
a missing `data` field instead defaults to the empty object and the
handler proceeds. -/
theorem c3_invalid_data_rejected_before_txn (fails : Nat → Bool) (db : DB)
    (file : Option String) (now : Value) :
    postCuestionario fails db (some DataField.malformed) file now
      = ⟨db, CuestResp.badRequest, []⟩ := rfl

/-- C4: in both transactional handlers, a failure after BEGIN yields the
generic 500, a ROLLBACK, and an unchanged store (no parent and no partial
dependent rows); the connection is released last whenever one was
acquired (for POST /cuestionario that is every non-400 outcome). -/
theorem c4_rollback_and_release (fails : Nat → Bool) (db : DB)
    (areaId : Value) (b : PuestoBody) (data : Option DataField)
    (file : Option String) (now : Value) :
    ((postPuesto fails db areaId b).resp = PuestoResp.serverError →
      (postPuesto fails db areaId b).db = db ∧
      Event.rollback ∈ (postPuesto fails db areaId b).trace) ∧
    (postPuesto fails db areaId b).trace.getLast? = some Event.release ∧
    ((postCuestionario fails db data file now).resp = CuestResp.serverError →
      (postCuestionario fails db data file now).db = db ∧
      Event.rollback ∈ (postCuestionario fails db data file now).trace) ∧
    ((postCuestionario fails db data file now).resp ≠ CuestResp.badRequest →
      (postCuestionario fails db data file now).trace.getLast?
        = some Event.release) :=
  ⟨(postPuesto_atomic fails db areaId b).1,
   (postPuesto_atomic fails db areaId b).2,
   (postCuestionario_atomic fails db data file now).1,
   (postCuestionario_atomic fails db data file now).2⟩

theorem c4_witness :
    (postPuesto (fun _ => true) exDB (Value.vstr "5") exBody).db = exDB ∧
    Event.rollback
      ∈ (postPuesto (fun _ => true) exDB (Value.vstr "5") exBody).trace :=
  (c4_rollback_and_release (fun _ => true) exDB (Value.vstr "5") exBody
    none none Value.vnull).1 (by decide)

/-- C5: every dependent-row write uses the parent insert's generated id as
the foreign key: any association insert the position handler issues binds
parameters `(puestoId, childId)` pairwise with `puestoId` the freshly
generated position id; any success response returns that same id; and
every answer row the questionnaire handler stores carries `info_id` equal
to the freshly generated header id, which is also the id the success
response returns — never a client-supplied value. -/
theorem c5_generated_id_threading (fails : Nat → Bool) (db : DB)
    (areaId : Value) (b : PuestoBody) (data : Option DataField)
    (file : Option String) (now : Value) :
    (∀ g ps, Event.exec "puestos_riesgos" g ps
        ∈ (postPuesto fails db areaId b).trace →
      ps = b.riesgos.flatMap fun r =>
        [Value.vint db.nextPuestoId, Value.vint r]) ∧
    (∀ g ps, Event.exec "puestos_epp" g ps
        ∈ (postPuesto fails db areaId b).trace →
      ps = b.epp.flatMap fun r =>
        [Value.vint db.nextPuestoId, Value.vint r]) ∧
    (∀ m, (postPuesto fails db areaId b).resp = PuestoResp.success m →
      m = db.nextPuestoId) ∧
    (∀ a ∈ (postCuestionario fails db data file now).db.cuestionarios,
      a ∈ db.cuestionarios ∨ a.info_id = Value.vint db.nextInfoId) ∧
    (∀ m, (postCuestionario fails db data file now).resp = CuestResp.saved m →
      m = db.nextInfoId) := by
  refine ⟨?_, ?_, ?_, ?_, ?_⟩
  · intro g ps h
    rcases postPuesto_trace_mem fails db areaId b _ h with
      hm | hm | hm | hm | hm | hm | hm | hm <;> simp_all
    exact assocBuild_params db.nextPuestoId b.riesgos
  · intro g ps h
    rcases postPuesto_trace_mem fails db areaId b _ h with
      hm | hm | hm | hm | hm | hm | hm | hm <;> simp_all
    exact assocBuild_params db.nextPuestoId b.epp
  · intro m h
    exact (postPuesto_success_id fails db areaId b m h).1
  · rcases data with - | - | p
    · rw [postCuestionario_none]
      exact cuestionarioTxn_new_answers fails db emptyPayload file now
    · intro a ha; exact Or.inl ha
    · rw [postCuestionario_wellFormed]
      exact cuestionarioTxn_new_answers fails db p file now
  · intro m h
    rcases data with - | - | p
    · rw [postCuestionario_none] at h
      exact cuestionarioTxn_saved_id fails db emptyPayload file now m h
    · simp [postCuestionario, parseData] at h
    · rw [postCuestionario_wellFormed] at h
      exact cuestionarioTxn_saved_id fails db p file now m h

theorem c5_witness :
    (5 : Int) = exDB.nextPuestoId ∧ (10 : Int) = exDB.nextInfoId :=
  ⟨(c5_generated_id_threading (fun _ => false) exDB (Value.vstr "5")
      exBodyEmpty (some (DataField.wellFormed exPayload)) none
      (Value.vstr "t")).2.2.1 5 (by decide),
   (c5_generated_id_threading (fun _ => false) exDB (Value.vstr "5")
      exBodyEmpty (some (DataField.wellFormed exPayload)) none
      (Value.vstr "t")).2.2.2.2 10 (by decide)⟩

/-- C6: with empty dependent lists (riesgos and epp for the position
handler, respuestas for the questionnaire handler) no dependent INSERT is
issued at all — the guarded builders are skipped, so no malformed
`VALUES ()` can arise — while the parent insert commits and the handlers
answer success. -/
theorem c6_empty_lists_no_dependent_insert (fails : Nat → Bool) (db : DB)
    (areaId : Value) (b : PuestoBody) (p : CuestPayload)
    (file : Option String) (now : Value)
    (hR : b.riesgos = []) (hE : b.epp = []) (hresp : p.respuestas = [])
    (hf : ∀ n, fails n = false) :
    (∀ g ps, Event.exec "puestos_riesgos" g ps
        ∉ (postPuesto fails db areaId b).trace) ∧
    (∀ g ps, Event.exec "puestos_epp" g ps
        ∉ (postPuesto fails db areaId b).trace) ∧
    (postPuesto fails db areaId b).resp
      = PuestoResp.success db.nextPuestoId ∧
    Event.commit ∈ (postPuesto fails db areaId b).trace ∧
    (postPuesto fails db areaId b).db.puestos
      = db.puestos ++ [⟨db.nextPuestoId, areaId, b.puesto,
          b.numero_usuarios, b.descripcion, b.criterio_epp⟩] ∧
    (postPuesto fails db areaId b).db.puestos_riesgos = db.puestos_riesgos ∧
    (postPuesto fails db areaId b).db.puestos_epp = db.puestos_epp ∧
    (∀ g ps, Event.exec "cuestionarios" g ps
        ∉ (postCuestionario fails db (some (DataField.wellFormed p))
            file now).trace) ∧
    (postCuestionario fails db (some (DataField.wellFormed p))
        file now).resp = CuestResp.saved db.nextInfoId ∧
    (postCuestionario fails db (some (DataField.wellFormed p))
        file now).db.cuestionarios = db.cuestionarios := by
  rw [postCuestionario_wellFormed,
    cuestionarioTxn_empty fails db p file now hresp hf,
    postPuesto_empty fails db areaId b hR hE hf]
  refine ⟨?_, ?_, rfl, by simp, rfl, rfl, rfl, ?_, rfl, rfl⟩ <;>
    intro g ps <;> simp

theorem c6_witness :
    (postPuesto (fun _ => false) exDB (Value.vstr "5") exBodyEmpty).resp
      = PuestoResp.success exDB.nextPuestoId ∧
    (postCuestionario (fun _ => false) exDB
        (some (DataField.wellFormed exPayloadEmpty)) none
        (Value.vstr "t")).db.cuestionarios = exDB.cuestionarios :=
  ⟨(c6_empty_lists_no_dependent_insert (fun _ => false) exDB
      (Value.vstr "5") exBodyEmpty exPayloadEmpty none (Value.vstr "t")
      rfl rfl rfl (fun _ => rfl)).2.2.1,
   (c6_empty_lists_no_dependent_insert (fun _ => false) exDB
      (Value.vstr "5") exBodyEmpty exPayloadEmpty none (Value.vstr "t")
      rfl rfl rfl (fun _ => rfl)).2.2.2.2.2.2.2.2.2⟩

/-- C7: a successful POST /cuestionario returns the generated header id,
and GET /cuestionario-completo of that id finds the header (issuing the
answer query) and returns exactly the submitted question/answer pairs in
submission order (answers are read back ordered by insertion id). -/
theorem c7_roundtrip_answers_in_order (fails : Nat → Bool) (db : DB)
    (p : CuestPayload) (file : Option String) (now : Value)
    (hwf : DBWF db) (hf : ∀ n, fails n = false) :
    (postCuestionario fails db (some (DataField.wellFormed p)) file now).resp
      = CuestResp.saved db.nextInfoId ∧
    (getCompleto
        (postCuestionario fails db (some (DataField.wellFormed p))
          file now).db db.nextInfoId).2 = true ∧
    ((getCompleto
        (postCuestionario fails db (some (DataField.wellFormed p))
          file now).db db.nextInfoId).1).answers
      = p.respuestas.map fun r => (r.pregunta, r.respuesta) := by
  refine ⟨(postCuestionario_success fails db p file now hf).2, ?_, ?_⟩
  · rw [getCompleto_after_success fails db p file now hwf hf]
  · rw [getCompleto_after_success fails db p file now hwf hf]
    rfl

theorem c7_witness :
    (postCuestionario (fun _ => false) exDB
        (some (DataField.wellFormed exPayload)) none
        (Value.vstr "t")).resp = CuestResp.saved 10 ∧
    ((getCompleto
        (postCuestionario (fun _ => false) exDB
          (some (DataField.wellFormed exPayload)) none
          (Value.vstr "t")).db 10).1).answers
      = [(Value.vstr "Q1", Value.vstr "A1"),
         (Value.vstr "Q2", Value.vstr "A2")] :=
  ⟨(c7_roundtrip_answers_in_order (fun _ => false) exDB exPayload none
      (Value.vstr "t")
      (by unfold DBWF exDB; refine ⟨?_, ?_, ?_⟩ <;> intros <;> simp_all)
      (fun _ => rfl)).1,
   (c7_roundtrip_answers_in_order (fun _ => false) exDB exPayload none
      (Value.vstr "t")
      (by unfold DBWF exDB; refine ⟨?_, ?_, ?_⟩ <;> intros <;> simp_all)
      (fun _ => rfl)).2.2⟩

/-- C8: GET /cuestionario-completo/:info_id for an id with no header row
returns the success payload `{info: null, respuestas: []}` (not an error
status) and issues no answer-list query. -/
theorem c8_not_found_null_payload (db : DB) (m : Int)
    (h : ∀ r ∈ db.cuestionarios_info, r.id ≠ m) :
    getCompleto db m = (CompletoResp.notFound, false) := by
  have hfilter : db.cuestionarios_info.filter (fun r => r.id == m) = [] :=
    List.filter_eq_nil_iff.mpr fun r hr => by simpa using h r hr
  unfold getCompleto
  rw [hfilter]

theorem c8_witness : getCompleto exDB 99 = (CompletoResp.notFound, false) :=
  c8_not_found_null_payload exDB 99 (by decide)

/-- C9: in the GET /cuestionario-completo response shaping, the three text
fields observaciones, recomendaciones and recomendaciones_epp become
"N/A" when the stored value is null (and are passed through when truthy),
while image and created_at never get that defaulting: a null image stays
null, a truthy image is passed through, and created_at is always passed
through unchanged. -/
theorem c9_na_defaulting (r : InfoRow) :
    (r.observaciones = Value.vnull →
      (shapeInfoRow r).observaciones = Value.vstr "N/A") ∧
    (r.observaciones.truthy = true →
      (shapeInfoRow r).observaciones = r.observaciones) ∧
    (r.recomendaciones = Value.vnull →
      (shapeInfoRow r).recomendaciones = Value.vstr "N/A") ∧
    (r.recomendaciones.truthy = true →
      (shapeInfoRow r).recomendaciones = r.recomendaciones) ∧
    (r.recomendaciones_epp = Value.vnull →
      (shapeInfoRow r).recomendaciones_epp = Value.vstr "N/A") ∧
    (r.recomendaciones_epp.truthy = true →
      (shapeInfoRow r).recomendaciones_epp = r.recomendaciones_epp) ∧
    (r.image = Value.vnull → (shapeInfoRow r).image = Value.vnull) ∧
    (r.image.truthy = true → (shapeInfoRow r).image = r.image) ∧
    (shapeInfoRow r).created_at = r.created_at := by
  unfold shapeInfoRow jsOr
  refine ⟨?_, ?_, ?_, ?_, ?_, ?_, ?_, ?_, rfl⟩ <;> intro h <;>
    simp only [h] <;> simp [Value.truthy]

theorem c9_witness :
    (shapeInfoRow exInfoRow).observaciones = Value.vstr "N/A" ∧
    (shapeInfoRow exInfoRow).recomendaciones_epp = Value.vstr "obs" ∧
    (shapeInfoRow exInfoRow).image = Value.vnull ∧
    (shapeInfoRow exInfoRow).created_at = Value.vstr "2026-01-01" :=
  ⟨(c9_na_defaulting exInfoRow).1 rfl,
   (c9_na_defaulting exInfoRow).2.2.2.2.2.1 rfl,
   (c9_na_defaulting exInfoRow).2.2.2.2.2.2.1 rfl,
   (c9_na_defaulting exInfoRow).2.2.2.2.2.2.2.2⟩

/-- C10: an empty-string observaciones/recomendaciones/recomendaciones_epp
is coerced to null by the `|| null` before insertion, making the whole
run (store and response alike) identical to one where the fields were
omitted, and it reads back as "N/A"; the image is exempt: with no file
uploaded it is stored as null and read back as null, never "N/A". -/
theorem c10_empty_string_indistinguishable (fails : Nat → Bool) (db : DB)
    (p : CuestPayload) (now : Value)
    (hwf : DBWF db) (hf : ∀ n, fails n = false) :
    postCuestionario fails db
        (some (DataField.wellFormed { p with
          observaciones := Value.vstr "",
          recomendaciones := Value.vstr "",
          recomendaciones_epp := Value.vstr "" })) none now
      = postCuestionario fails db
        (some (DataField.wellFormed { p with
          observaciones := Value.vnull,
          recomendaciones := Value.vnull,
          recomendaciones_epp := Value.vnull })) none now ∧
    (∃ rs, (getCompleto
        (postCuestionario fails db
          (some (DataField.wellFormed { p with
            observaciones := Value.vstr "",
            recomendaciones := Value.vstr "",
            recomendaciones_epp := Value.vstr "" })) none now).db
        db.nextInfoId).1
      = CompletoResp.found
          ⟨Value.vstr "N/A", Value.vstr "N/A", Value.vstr "N/A",
           Value.vnull, now⟩ rs) := by
  constructor
  · rfl
  · exact ⟨_, by
      rw [getCompleto_after_success fails db _ none now hwf hf]
      rfl⟩

theorem c10_witness :
    postCuestionario (fun _ => false) exDB
        (some (DataField.wellFormed { exPayloadEmpty with
          observaciones := Value.vstr "",
          recomendaciones := Value.vstr "",
          recomendaciones_epp := Value.vstr "" })) none (Value.vstr "t")
      = postCuestionario (fun _ => false) exDB
        (some (DataField.wellFormed { exPayloadEmpty with
          observaciones := Value.vnull,
          recomendaciones := Value.vnull,
          recomendaciones_epp := Value.vnull })) none (Value.vstr "t") :=
  (c10_empty_string_indistinguishable (fun _ => false) exDB exPayloadEmpty
    (Value.vstr "t")
    (by unfold DBWF exDB; refine ⟨?_, ?_, ?_⟩ <;> intros <;> simp_all)
    (fun _ => rfl)).1

end AppClientes
